import Mathlib

/-!
Shallow embedding of the voice-management and envelope-synthesis core of
`src/js/piano.js` (the Harmonica repository's interactive piano).

Modelling choices:
* Times and gain values are rationals (`ℚ`); the Web Audio clock value
  `audioCtx.currentTime` is passed to each operation as a `now` argument.
* A DOM key element is a `KeyEl`: a stable identity (`id`, standing for the
  element object's identity, which is what the JS `Map` is keyed by) plus its
  optional `data-midi` attribute.  A possibly-null element is `Option KeyEl`.
* Audio nodes (oscillators and gain nodes) are numbered by a fresh-name
  counter; the state tracks which node numbers are currently connected into
  the graph, the scheduled AudioParam automation events of each gain node,
  the scheduled stop time of each oscillator, and the `setTimeout` cleanup
  callbacks that have been registered (each closure captures the oscillator
  and gain node of one particular voice).
* `gain.gain.value` — the engine-computed instantaneous gain at `noteOff`
  time — is supplied as an oracle argument `curGain`, since the rendering
  thread's interpolation is outside the embedded program.
* The calls that can raise in a browser (`osc.stop` on an already-stopped
  oscillator, `disconnect`) are given oracle booleans saying whether they
  throw; the source wraps them in `try { … } catch { }`, which the embedding
  mirrors.  `Except`-valued variants (`…E`) make the throw sites explicit so
  that "never throws outward" is a provable statement.
* The master-gain bus and `audioCtx.resume()` are not part of any claim
  below and are left out of the state.
-/

/-- The ADSR envelope configuration record of piano.js
(`const ADSR = { attack: 0.01, decay: 0.12, sustain: 0.75, release: 0.25 }`). -/
structure ADSRConfig where
  attack : ℚ
  decay : ℚ
  sustain : ℚ
  release : ℚ
deriving DecidableEq

/-- The concrete configuration in the source. -/
def defaultADSR : ADSRConfig := ⟨1/100, 12/100, 3/4, 1/4⟩

/-- A DOM key element: its object identity and its `dataset.midi` value
(`none` when the attribute is missing or unparseable, i.e. falsy/NaN). -/
structure KeyEl where
  id : Nat
  midi : Option Int
deriving DecidableEq

/-- A voice as stored in `activeVoices`: the oscillator node, its gain node,
and (for the record) the MIDI number and waveform fixed at creation. -/
structure Voice where
  osc : Nat
  gain : Nat
  midi : Int
  wave : String
deriving DecidableEq

/-- An AudioParam automation call scheduled on a gain node's `gain` param. -/
inductive GainEvent where
  | cancelScheduledValues : ℚ → GainEvent
  | setValueAtTime : ℚ → ℚ → GainEvent
  | exponentialRampToValueAtTime : ℚ → ℚ → GainEvent
deriving DecidableEq

/-- A registered `setTimeout` cleanup callback: the closure captures one
voice's oscillator and gain node numbers; `fireAt` is the absolute time the
callback runs (registration time plus the millisecond delay / 1000). -/
structure CleanupTask where
  osc : Nat
  gain : Nat
  fireAt : ℚ
deriving DecidableEq

/-- The mutable state of the piano core. -/
structure PianoState where
  /-- `const activeVoices = new Map()` keyed by key-element identity. -/
  activeVoices : List (Nat × Voice)
  /-- fresh-name counter for audio nodes -/
  nextNode : Nat
  /-- node numbers currently connected into the audio graph -/
  connected : List Nat
  /-- automation events scheduled so far, per gain node, in program order -/
  gainLog : List (Nat × GainEvent)
  /-- scheduled `osc.stop` times -/
  oscStopAt : List (Nat × ℚ)
  /-- oscillators on which `osc.start` has been called -/
  oscStarted : List Nat
  /-- `setTimeout` cleanup callbacks registered so far -/
  pending : List CleanupTask
  /-- key-element identities currently carrying the "active" CSS class -/
  activeCls : List Nat
deriving DecidableEq

/-- State before any interaction. -/
def initialState : PianoState := ⟨[], 0, [], [], [], [], [], []⟩

/-- `osc.type = (waveSelect && waveSelect.value) ? waveSelect.value : "triangle"`:
the selector may be absent (`none`) or hold a falsy empty string. -/
def effectiveWave (w : Option String) : String :=
  match w with
  | none => "triangle"
  | some s => if s = "" then "triangle" else s

/-- `startNoteForElement(keyEl)` from piano.js.  `wave` is the waveform
selector's state (`none` = element absent, `some ""` = empty value). -/
def startNoteForElement (adsr : ADSRConfig) (wave : Option String) (now : ℚ)
    (keyEl : Option KeyEl) (st : PianoState) : PianoState :=
  match keyEl with
  | none => st
  | some k =>
    match k.midi with
    | none => st
    | some m =>
      if (st.activeVoices.lookup k.id).isSome then st
      else
        let osc := st.nextNode
        let gain := st.nextNode + 1
        let v : Voice := ⟨osc, gain, m, effectiveWave wave⟩
        { activeVoices := (k.id, v) :: st.activeVoices
          nextNode := st.nextNode + 2
          connected := osc :: gain :: st.connected
          gainLog := st.gainLog ++
            [(gain, GainEvent.setValueAtTime (1/10000) now),
             (gain, GainEvent.exponentialRampToValueAtTime 1 (now + adsr.attack)),
             (gain, GainEvent.exponentialRampToValueAtTime
                (max (1/10000) adsr.sustain) (now + adsr.attack + adsr.decay))]
          oscStopAt := st.oscStopAt
          oscStarted := osc :: st.oscStarted
          pending := st.pending
          activeCls := if k.id ∈ st.activeCls then st.activeCls
                       else k.id :: st.activeCls }

/-- `stopNoteForElement(keyEl)` from piano.js.  `curGain` is the value the
engine reports as `gain.gain.value` at time `now`; `oscStopThrows` says
whether `osc.stop(...)` raises (oscillator already stopped), which the
source catches and ignores. -/
def stopNoteForElement (adsr : ADSRConfig) (now curGain : ℚ)
    (oscStopThrows : Bool) (keyEl : Option KeyEl) (st : PianoState) : PianoState :=
  match keyEl with
  | none => st
  | some k =>
    match st.activeVoices.lookup k.id with
    | none => { st with activeCls := st.activeCls.erase k.id }
    | some v =>
      { st with
        gainLog := st.gainLog ++
          [(v.gain, GainEvent.cancelScheduledValues now),
           (v.gain, GainEvent.setValueAtTime curGain now),
           (v.gain, GainEvent.exponentialRampToValueAtTime (1/10000)
              (now + adsr.release))]
        oscStopAt := if oscStopThrows then st.oscStopAt
                     else (v.osc, now + adsr.release + 1/50) :: st.oscStopAt
        pending := st.pending ++ [⟨v.osc, v.gain, now + adsr.release + 1/10⟩]
        activeVoices := st.activeVoices.eraseP (fun p => p.1 == k.id)
        activeCls := st.activeCls.erase k.id }

/-- The body of the `setTimeout` cleanup callback registered by
`stopNoteForElement`: `try { osc.disconnect(); gain.disconnect(); } catch {}`.
The two booleans say whether each `disconnect` call raises; a raise aborts
the rest of the `try` block but is swallowed by the `catch`. -/
def runCleanup (oscDiscThrows gainDiscThrows : Bool) (task : CleanupTask)
    (st : PianoState) : PianoState :=
  if oscDiscThrows then st
  else
    let st1 := { st with connected := st.connected.filter (fun n => n != task.osc) }
    if gainDiscThrows then st1
    else { st1 with connected := st1.connected.filter (fun n => n != task.gain) }

/-! `Except`-valued variants: the same operations with the browser's
potential exception points made explicit, so that "no exception propagates
to the caller" is a theorem rather than a modelling artifact. -/

/-- `osc.stop(t)`: throws `InvalidStateError` when already stopped. -/
def oscStopCall (throws : Bool) (osc : Nat) (t : ℚ) (st : PianoState) :
    Except String PianoState :=
  if throws then Except.error "InvalidStateError"
  else Except.ok { st with oscStopAt := (osc, t) :: st.oscStopAt }

/-- `node.disconnect()`: may throw. -/
def disconnectCall (throws : Bool) (node : Nat) (st : PianoState) :
    Except String PianoState :=
  if throws then Except.error "InvalidAccessError"
  else Except.ok { st with connected := st.connected.filter (fun n => n != node) }

/-- `startNoteForElement` with the guarded `keyEl.dataset.midi` access made
explicit: the `!keyEl ||` short-circuit means the dataset is never read on a
null element, so no throw site remains. -/
def startNoteForElementE (adsr : ADSRConfig) (wave : Option String) (now : ℚ)
    (keyEl : Option KeyEl) (st : PianoState) : Except String PianoState :=
  match keyEl with
  | none => Except.ok st
  | some k =>
    match k.midi with
    | none => Except.ok st
    | some _ => Except.ok (startNoteForElement adsr wave now keyEl st)

/-- `stopNoteForElement` with the `try { osc.stop(...) } catch (e) {}` block
explicit: a raising `osc.stop` leaves the state as it was just before the
call and execution continues after the `catch`. -/
def stopNoteForElementE (adsr : ADSRConfig) (now curGain : ℚ)
    (oscStopThrows : Bool) (keyEl : Option KeyEl) (st : PianoState) :
    Except String PianoState :=
  match keyEl with
  | none => Except.ok st
  | some k =>
    match st.activeVoices.lookup k.id with
    | none => Except.ok { st with activeCls := st.activeCls.erase k.id }
    | some v =>
      let st1 := { st with
        gainLog := st.gainLog ++
          [(v.gain, GainEvent.cancelScheduledValues now),
           (v.gain, GainEvent.setValueAtTime curGain now),
           (v.gain, GainEvent.exponentialRampToValueAtTime (1/10000)
              (now + adsr.release))] }
      let st2 := match oscStopCall oscStopThrows v.osc
                        (now + adsr.release + 1/50) st1 with
                 | Except.ok s => s
                 | Except.error _ => st1
      Except.ok { st2 with
        pending := st2.pending ++ [⟨v.osc, v.gain, now + adsr.release + 1/10⟩]
        activeVoices := st2.activeVoices.eraseP (fun p => p.1 == k.id)
        activeCls := st2.activeCls.erase k.id }

/-- The cleanup callback with its `try`/`catch` explicit: a raising
`osc.disconnect` skips `gain.disconnect`; either raise is swallowed. -/
def runCleanupE (oscDiscThrows gainDiscThrows : Bool) (task : CleanupTask)
    (st : PianoState) : Except String PianoState :=
  match disconnectCall oscDiscThrows task.osc st with
  | Except.error _ => Except.ok st
  | Except.ok st1 =>
    match disconnectCall gainDiscThrows task.gain st1 with
    | Except.error _ => Except.ok st1
    | Except.ok st2 => Except.ok st2

/-- `function midiToFreq(m) { return 440 * Math.pow(2, (m - 69) / 12); }` -/
noncomputable def midiToFreq (m : ℤ) : ℝ :=
  440 * (2 : ℝ) ^ (((m : ℝ) - 69) / 12)

/-! ### Helper lemmas and interaction scenarios -/

/-- Effect of a note-on from the pristine state: one registered voice using
fresh nodes 0 (oscillator) and 1 (gain), attack/decay scheduled. -/
theorem noteOn_from_empty (adsr : ADSRConfig) (w : Option String) (t0 : ℚ)
    (k : Nat) (m : Int) :
    startNoteForElement adsr w t0 (some ⟨k, some m⟩) initialState =
    { activeVoices := [(k, ⟨0, 1, m, effectiveWave w⟩)]
      nextNode := 2
      connected := [0, 1]
      gainLog := [(1, GainEvent.setValueAtTime (1/10000) t0),
                  (1, GainEvent.exponentialRampToValueAtTime 1 (t0 + adsr.attack)),
                  (1, GainEvent.exponentialRampToValueAtTime
                      (max (1/10000) adsr.sustain) (t0 + adsr.attack + adsr.decay))]
      oscStopAt := []
      oscStarted := [0]
      pending := []
      activeCls := [k] } := by
  simp [startNoteForElement, initialState, List.lookup]

/-- Effect of a note-off right after that note-on: release ramp scheduled on
gain node 1, oscillator stop and cleanup callback scheduled, and the
registry entry deleted synchronously. -/
theorem noteOff_after_noteOn (adsr : ADSRConfig) (w : Option String)
    (t0 t1 g : ℚ) (k : Nat) (m : Int) (mv : Option Int) :
    stopNoteForElement adsr t1 g false (some ⟨k, mv⟩)
      (startNoteForElement adsr w t0 (some ⟨k, some m⟩) initialState) =
    { activeVoices := []
      nextNode := 2
      connected := [0, 1]
      gainLog := [(1, GainEvent.setValueAtTime (1/10000) t0),
                  (1, GainEvent.exponentialRampToValueAtTime 1 (t0 + adsr.attack)),
                  (1, GainEvent.exponentialRampToValueAtTime
                      (max (1/10000) adsr.sustain) (t0 + adsr.attack + adsr.decay)),
                  (1, GainEvent.cancelScheduledValues t1),
                  (1, GainEvent.setValueAtTime g t1),
                  (1, GainEvent.exponentialRampToValueAtTime (1/10000)
                      (t1 + adsr.release))]
      oscStopAt := [(0, t1 + adsr.release + 1/50)]
      oscStarted := [0]
      pending := [⟨0, 1, t1 + adsr.release + 1/10⟩]
      activeCls := [] } := by
  rw [noteOn_from_empty]
  simp [stopNoteForElement, List.lookup, List.eraseP, List.erase]

/-- Scenario: from the pristine state, note-on for key `k` at `t0`, then
note-off at `t1` (engine gain reading `g`). -/
def onOff (adsr : ADSRConfig) (w : Option String) (t0 t1 g : ℚ)
    (k : Nat) (m : Int) : PianoState :=
  stopNoteForElement adsr t1 g false (some ⟨k, some m⟩)
    (startNoteForElement adsr w t0 (some ⟨k, some m⟩) initialState)

/-- Scenario: `onOff` followed by a second note-on for the same key at `t2`,
before the first voice's cleanup callback has fired. -/
def onOffOn (adsr : ADSRConfig) (w1 w2 : Option String) (t0 t1 t2 g : ℚ)
    (k : Nat) (m : Int) : PianoState :=
  startNoteForElement adsr w2 t2 (some ⟨k, some m⟩) (onOff adsr w1 t0 t1 g k m)

/-! ### Claim C1 -/

/-- Claim C1, refuted as stated: at the concrete input (key element 0, MIDI
60, note-on at time 0, note-off at time 1/10), the registry entry is already
gone the moment `stopNoteForElement` returns — before any release time has
elapsed and before the delayed cleanup has run — so note-off does remove the
registry entry synchronously, contrary to the claim. -/
theorem C1_counterexample :
    (onOff defaultADSR none 0 (1/10) (3/4) 0 60).activeVoices = [] ∧
    (onOff defaultADSR none 0 (1/10) (3/4) 0 60).pending
      = [⟨0, 1, 1/10 + defaultADSR.release + 1/10⟩] := by
  unfold onOff
  rw [noteOff_after_noteOn]
  exact ⟨rfl, rfl⟩

/-- Claim C1, amended: after `noteOn(k)` then `noteOff(k)`, the registry
entry for `k` is removed synchronously by note-off; the voice's audio nodes
nevertheless remain connected and its oscillator stop is scheduled at
release + 0.02 s after note-off (so sound continues for at least the release
duration), and only the cleanup callback scheduled release + 0.1 s after
note-off disconnects the nodes, leaving no connected node. -/
theorem C1_release_lifecycle_amended (adsr : ADSRConfig) (w : Option String)
    (t0 t1 g : ℚ) (k : Nat) (m : Int) :
    (onOff adsr w t0 t1 g k m).activeVoices = [] ∧
    (onOff adsr w t0 t1 g k m).connected = [0, 1] ∧
    (onOff adsr w t0 t1 g k m).oscStopAt = [(0, t1 + adsr.release + 1/50)] ∧
    t1 + adsr.release ≤ t1 + adsr.release + 1/50 ∧
    (onOff adsr w t0 t1 g k m).pending = [⟨0, 1, t1 + adsr.release + 1/10⟩] ∧
    (runCleanup false false ⟨0, 1, t1 + adsr.release + 1/10⟩
        (onOff adsr w t0 t1 g k m)).connected = [] := by
  unfold onOff
  rw [noteOff_after_noteOn]
  refine ⟨rfl, rfl, rfl, by norm_num, rfl, ?_⟩
  simp [runCleanup]

/-! ### Claim C2 -/

/-- Claim C2, refuted as stated: at the concrete input (key 0, MIDI 60,
note-on at 0, note-off at 1/10, second note-on at 3/20 — strictly before the
cleanup callback time 1/10 + release + 1/10), the second note-on is not
ignored: a brand-new voice with fresh oscillator node 2 and gain node 3 is
created and registered. -/
theorem C2_counterexample :
    (onOffOn defaultADSR none none 0 (1/10) (3/20) (3/4) 0 60).activeVoices
      = [(0, ⟨2, 3, 60, "triangle"⟩)] ∧
    (onOffOn defaultADSR none none 0 (1/10) (3/20) (3/4) 0 60).nextNode = 4 ∧
    (3/20 : ℚ) < 1/10 + defaultADSR.release + 1/10 := by
  unfold onOffOn onOff
  rw [noteOff_after_noteOn]
  refine ⟨?_, ?_, ?_⟩
  · simp [startNoteForElement, List.lookup, effectiveWave]
  · simp [startNoteForElement, List.lookup]
  · norm_num [defaultADSR]

/-- Claim C2, amended: a note-on for a key whose previous voice is still in
its release phase is not ignored — note-off already removed the registry
entry synchronously, so no entry blocks the new attack and a fresh voice
with new oscillator and gain nodes is created and registered. -/
theorem C2_retrigger_after_release_amended (adsr : ADSRConfig)
    (w1 w2 : Option String) (t0 t1 t2 g : ℚ) (k : Nat) (m : Int) :
    (onOffOn adsr w1 w2 t0 t1 t2 g k m).activeVoices
      = [(k, ⟨2, 3, m, effectiveWave w2⟩)] ∧
    (onOffOn adsr w1 w2 t0 t1 t2 g k m).nextNode = 4 := by
  unfold onOffOn onOff
  rw [noteOff_after_noteOn]
  simp [startNoteForElement, List.lookup]

/-! ### Claim C3 -/

/-- Claim C3: after `noteOn(k)`, `noteOff(k)`, `noteOn(k)` (the second
note-on before the old voice's cleanup fires), exactly one live voice
remains — the new one on nodes 2/3 — and the old voice's cleanup callback,
which captured the old nodes 0/1, disconnects exactly those when it fires,
leaving the new voice registered and its nodes connected. -/
theorem C3_interleaved_retrigger_safe (adsr : ADSRConfig)
    (w1 w2 : Option String) (t0 t1 t2 g : ℚ) (k : Nat) (m : Int) :
    (onOffOn adsr w1 w2 t0 t1 t2 g k m).activeVoices
      = [(k, ⟨2, 3, m, effectiveWave w2⟩)] ∧
    (onOffOn adsr w1 w2 t0 t1 t2 g k m).pending
      = [⟨0, 1, t1 + adsr.release + 1/10⟩] ∧
    (runCleanup false false ⟨0, 1, t1 + adsr.release + 1/10⟩
        (onOffOn adsr w1 w2 t0 t1 t2 g k m)).activeVoices
      = [(k, ⟨2, 3, m, effectiveWave w2⟩)] ∧
    (runCleanup false false ⟨0, 1, t1 + adsr.release + 1/10⟩
        (onOffOn adsr w1 w2 t0 t1 t2 g k m)).connected = [2, 3] := by
  unfold onOffOn onOff
  rw [noteOff_after_noteOn]
  refine ⟨?_, ?_, ?_, ?_⟩ <;> simp [startNoteForElement, List.lookup, runCleanup]

/-! ### Claim C4 -/

/-- Claim C4: note-on is idempotent — a second `startNoteForElement` for the
same key element without an intervening note-off returns with the state
completely unchanged (no new nodes, no envelope rescheduling, no registry
mutation), regardless of the waveform selector or clock at the second call. -/
theorem C4_noteOn_idempotent (adsr : ADSRConfig) (w1 w2 : Option String)
    (t1 t2 : ℚ) (k : Nat) (m : Int) (st : PianoState) :
    startNoteForElement adsr w2 t2 (some ⟨k, some m⟩)
      (startNoteForElement adsr w1 t1 (some ⟨k, some m⟩) st)
    = startNoteForElement adsr w1 t1 (some ⟨k, some m⟩) st := by
  cases h : (st.activeVoices.lookup k).isSome with
  | true => simp [startNoteForElement, h]
  | false => simp [startNoteForElement, h, List.lookup]

/-! ### Claim C5 -/

/-- Claim C5: note-off on an active voice schedules, at the current time,
exactly: cancel of pending ramp values, a set of the gain to its current
instantaneous value `g` (the engine snapshot, whatever it is — in particular
mid-attack or mid-decay — not a nominal target), then an exponential ramp to
the 0.0001 floor at now + release. -/
theorem C5_release_envelope (adsr : ADSRConfig) (now g : ℚ) (thr : Bool)
    (k : Nat) (mv : Option Int) (st : PianoState) (v : Voice)
    (h : st.activeVoices.lookup k = some v) :
    (stopNoteForElement adsr now g thr (some ⟨k, mv⟩) st).gainLog
      = st.gainLog ++
        [(v.gain, GainEvent.cancelScheduledValues now),
         (v.gain, GainEvent.setValueAtTime g now),
         (v.gain, GainEvent.exponentialRampToValueAtTime (1/10000)
            (now + adsr.release))] := by
  simp [stopNoteForElement, h]

/-- Witness for C5: the release sequence as scheduled for the concrete voice
created by a note-on from the pristine state, released mid-decay with the
engine reporting gain 1/2. -/
theorem C5_release_envelope_witness :
    ((startNoteForElement defaultADSR none 0 (some ⟨0, some 60⟩)
        initialState).activeVoices.lookup 0 = some ⟨0, 1, 60, "triangle"⟩) ∧
    (stopNoteForElement defaultADSR (1/10) (1/2) false (some ⟨0, some 60⟩)
        (startNoteForElement defaultADSR none 0 (some ⟨0, some 60⟩)
          initialState)).gainLog
      = (startNoteForElement defaultADSR none 0 (some ⟨0, some 60⟩)
          initialState).gainLog ++
        [(1, GainEvent.cancelScheduledValues (1/10)),
         (1, GainEvent.setValueAtTime (1/2) (1/10)),
         (1, GainEvent.exponentialRampToValueAtTime (1/10000)
            (1/10 + defaultADSR.release))] :=
  ⟨by decide,
   C5_release_envelope defaultADSR (1/10) (1/2) false 0 (some 60)
     (startNoteForElement defaultADSR none 0 (some ⟨0, some 60⟩) initialState)
     ⟨0, 1, 60, "triangle"⟩ (by decide)⟩

/-! ### Claim C6 -/

/-- Claim C6: note-off for a key with no registered voice is a no-op at the
core level — no exception (the function is total and takes the early-return
branch) and no registry mutation; the only effect is removing the visual
"active" class from the element. -/
theorem C6_noteOff_noop (adsr : ADSRConfig) (now g : ℚ) (thr : Bool)
    (k : Nat) (mv : Option Int) (st : PianoState)
    (h : st.activeVoices.lookup k = none) :
    stopNoteForElement adsr now g thr (some ⟨k, mv⟩) st
      = { st with activeCls := st.activeCls.erase k } ∧
    (stopNoteForElement adsr now g thr (some ⟨k, mv⟩) st).activeVoices
      = st.activeVoices := by
  refine ⟨?_, ?_⟩ <;> simp [stopNoteForElement, h]

/-- Witness for C6: a redundant note-off on the pristine state. -/
theorem C6_noteOff_noop_witness :
    (initialState.activeVoices.lookup 5 = none) ∧
    stopNoteForElement defaultADSR 0 0 false (some ⟨5, none⟩) initialState
      = { initialState with activeCls := initialState.activeCls.erase 5 } ∧
    (stopNoteForElement defaultADSR 0 0 false (some ⟨5, none⟩)
        initialState).activeVoices = initialState.activeVoices :=
  ⟨by decide, C6_noteOff_noop defaultADSR 0 0 false 5 none initialState (by decide)⟩

/-! ### Claim C7 -/

/-- Claim C7: the pitch resolver is the pure equal-temperament map
`440 * 2 ^ ((n - 69) / 12)` for every integer `n` (out-of-range inputs are
passed through the same formula, unclamped); in particular key 69 maps to
exactly 440 Hz and key 60 to ≈ 261.63 Hz (strictly between 261.62 and
261.64). -/
theorem C7_pitch_resolver :
    midiToFreq 69 = 440 ∧
    (261.62 < midiToFreq 60 ∧ midiToFreq 60 < 261.64) ∧
    (∀ n : ℤ, midiToFreq n = 440 * (2 : ℝ) ^ (((n : ℝ) - 69) / 12)) := by
  have h2 : (0:ℝ) < 2 := by norm_num
  have ht0 : (0:ℝ) < (2:ℝ) ^ ((3:ℝ)/4) := Real.rpow_pos_of_pos h2 _
  have ht4 : ((2:ℝ) ^ ((3:ℝ)/4)) ^ (4:ℕ) = 8 := by
    rw [← Real.rpow_natCast ((2:ℝ) ^ ((3:ℝ)/4)) 4, ← Real.rpow_mul h2.le]
    rw [show ((3:ℝ)/4) * ((4:ℕ):ℝ) = ((3:ℕ):ℝ) by push_cast; ring]
    rw [Real.rpow_natCast]; norm_num
  have hlow : (440/261.64 : ℝ) < (2:ℝ) ^ ((3:ℝ)/4) := by
    apply lt_of_pow_lt_pow_left₀ 4 ht0.le
    rw [ht4]; norm_num
  have hhigh : (2:ℝ) ^ ((3:ℝ)/4) < (440/261.62 : ℝ) := by
    apply lt_of_pow_lt_pow_left₀ 4 (by norm_num)
    rw [ht4]; norm_num
  have hval : midiToFreq 60 = 440 / (2:ℝ) ^ ((3:ℝ)/4) := by
    show 440 * (2:ℝ) ^ ((((60:ℤ):ℝ) - 69) / 12) = _
    rw [show (((60:ℤ):ℝ) - 69) / 12 = -((3:ℝ)/4) by norm_num]
    rw [Real.rpow_neg h2.le]; ring
  refine ⟨?_, ⟨?_, ?_⟩, fun n => rfl⟩
  · show 440 * (2:ℝ) ^ ((((69:ℤ):ℝ) - 69) / 12) = 440
    rw [show (((69:ℤ):ℝ) - 69) / 12 = 0 by norm_num, Real.rpow_zero, mul_one]
  · rw [hval, lt_div_iff₀ ht0]
    calc (261.62:ℝ) * (2:ℝ) ^ ((3:ℝ)/4)
        < 261.62 * (440/261.62) := by
          exact mul_lt_mul_of_pos_left hhigh (by norm_num)
      _ = 440 := by norm_num
  · rw [hval, div_lt_iff₀ ht0]
    calc (440:ℝ) = 261.64 * (440/261.64) := by norm_num
      _ < 261.64 * (2:ℝ) ^ ((3:ℝ)/4) := by
          exact mul_lt_mul_of_pos_left hlow (by norm_num)

/-! ### Claim C8 -/

/-- Claim C8: no core operation propagates an exception — the `Except`-valued
variants (whose throw sites mirror the browser's: `osc.stop` on a stopped
oscillator, `disconnect`) always return `ok` of exactly the total function's
result, for every input including every oracle choice of which audio calls
raise; and a null element or an element with no MIDI data makes note-on and
note-off return with the state untouched. -/
theorem C8_never_throws :
    (∀ (adsr : ADSRConfig) (w : Option String) (now : ℚ)
       (keyEl : Option KeyEl) (st : PianoState),
       startNoteForElementE adsr w now keyEl st
         = Except.ok (startNoteForElement adsr w now keyEl st)) ∧
    (∀ (adsr : ADSRConfig) (now g : ℚ) (thr : Bool)
       (keyEl : Option KeyEl) (st : PianoState),
       stopNoteForElementE adsr now g thr keyEl st
         = Except.ok (stopNoteForElement adsr now g thr keyEl st)) ∧
    (∀ (b1 b2 : Bool) (task : CleanupTask) (st : PianoState),
       runCleanupE b1 b2 task st = Except.ok (runCleanup b1 b2 task st)) ∧
    (∀ (adsr : ADSRConfig) (w : Option String) (now : ℚ) (st : PianoState),
       startNoteForElement adsr w now none st = st) ∧
    (∀ (adsr : ADSRConfig) (w : Option String) (now : ℚ) (k : Nat)
       (st : PianoState),
       startNoteForElement adsr w now (some ⟨k, none⟩) st = st) ∧
    (∀ (adsr : ADSRConfig) (now g : ℚ) (thr : Bool) (st : PianoState),
       stopNoteForElement adsr now g thr none st = st) := by
  refine ⟨?_, ?_, ?_, ?_, ?_, ?_⟩
  · intro adsr w now keyEl st
    match keyEl with
    | none => rfl
    | some k =>
      match hm : k.midi with
      | none => simp [startNoteForElementE, startNoteForElement, hm]
      | some m => simp [startNoteForElementE, hm]
  · intro adsr now g thr keyEl st
    match keyEl with
    | none => rfl
    | some k =>
      match hv : st.activeVoices.lookup k.id with
      | none => simp [stopNoteForElementE, stopNoteForElement, hv]
      | some v =>
        cases thr <;>
          simp [stopNoteForElementE, stopNoteForElement, hv, oscStopCall]
  · intro b1 b2 task st
    cases b1 <;> cases b2 <;> simp [runCleanupE, runCleanup, disconnectCall]
  · intro adsr w now st; rfl
  · intro adsr w now k st; rfl
  · intro adsr now g thr st; rfl

/-! ### Claim C9 -/

/-- Claim C9: the attack ramp targets 1 and the decay ramp targets
`max 0.0001 sustain`, so for every envelope configuration — a sustain level
of 0 included — both exponential ramp targets scheduled at note-on are
strictly positive. -/
theorem C9_positive_ramp_targets (adsr : ADSRConfig) (w : Option String)
    (now : ℚ) (k : Nat) (m : Int) (st : PianoState)
    (h : st.activeVoices.lookup k = none) :
    (startNoteForElement adsr w now (some ⟨k, some m⟩) st).gainLog
      = st.gainLog ++
        [(st.nextNode + 1, GainEvent.setValueAtTime (1/10000) now),
         (st.nextNode + 1, GainEvent.exponentialRampToValueAtTime 1
            (now + adsr.attack)),
         (st.nextNode + 1, GainEvent.exponentialRampToValueAtTime
            (max (1/10000) adsr.sustain) (now + adsr.attack + adsr.decay))] ∧
    (0:ℚ) < 1 ∧ (0:ℚ) < max (1/10000) adsr.sustain := by
  refine ⟨by simp [startNoteForElement, h], by norm_num, ?_⟩
  exact lt_of_lt_of_le (by norm_num) (le_max_left _ _)

/-- Witness for C9, at a configuration whose sustain level is 0: the decay
target is still strictly positive. -/
theorem C9_positive_ramp_targets_witness :
    (initialState.activeVoices.lookup 0 = none) ∧
    ((startNoteForElement ⟨1/100, 12/100, 0, 1/4⟩ none 0 (some ⟨0, some 60⟩)
        initialState).gainLog
      = initialState.gainLog ++
        [(initialState.nextNode + 1, GainEvent.setValueAtTime (1/10000) 0),
         (initialState.nextNode + 1, GainEvent.exponentialRampToValueAtTime 1
            (0 + (1:ℚ)/100)),
         (initialState.nextNode + 1, GainEvent.exponentialRampToValueAtTime
            (max (1/10000) 0) (0 + (1:ℚ)/100 + 12/100))] ∧
      (0:ℚ) < 1 ∧ (0:ℚ) < max (1/10000) (0:ℚ)) :=
  ⟨by decide,
   C9_positive_ramp_targets ⟨1/100, 12/100, 0, 1/4⟩ none 0 0 60 initialState
     (by decide)⟩

/-! ### Claim C10 -/

/-- Claim C10: when the waveform selector is absent (`none`) or its value is
the empty string, the voice created at note-on carries the "triangle"
waveform. -/
theorem C10_default_wave (adsr : ADSRConfig) (w : Option String) (now : ℚ)
    (k : Nat) (m : Int) (st : PianoState)
    (hw : w = none ∨ w = some "")
    (h : st.activeVoices.lookup k = none) :
    (startNoteForElement adsr w now (some ⟨k, some m⟩) st).activeVoices.lookup k
      = some ⟨st.nextNode, st.nextNode + 1, m, "triangle"⟩ := by
  rcases hw with rfl | rfl <;>
    simp [startNoteForElement, h, effectiveWave, List.lookup]

/-- Witness for C10: a note-on with an empty waveform selector value
registers a triangle voice. -/
theorem C10_default_wave_witness :
    ((some "" : Option String) = none ∨ (some "" : Option String) = some "") ∧
    (initialState.activeVoices.lookup 0 = none) ∧
    (startNoteForElement defaultADSR (some "") 0 (some ⟨0, some 60⟩)
        initialState).activeVoices.lookup 0
      = some ⟨initialState.nextNode, initialState.nextNode + 1, 60, "triangle"⟩ :=
  ⟨Or.inr rfl, by decide,
   C10_default_wave defaultADSR (some "") 0 0 60 initialState (Or.inr rfl)
     (by decide)⟩
